import Mathlib

/-!
Shallow embedding of `src/financial-simulation.js` (class `FinancialSimulation`),
an educational financial-literacy game engine.

Modelling conventions:
* JavaScript numbers are modelled as exact rationals `ℚ`; `Math.round` is
  `jsRound` (round half toward positive infinity, as JS does).
* `Math.random()` is modelled as a draw stream `rand : ℕ → ℚ` together with a
  cursor `k : ℕ`; every operation that draws randomness takes `rand` and `k`
  and returns the advanced cursor, so the number of draws consumed is visible.
* Operations that can throw a JavaScript `TypeError` (dereferencing a missing
  location-catalog entry or a `null` job) return `Except JsError _`;
  operations whose every path returns normally are plain functions.
* The event-listener registry is not part of the observable state modelled
  here: listeners are external callbacks, and `triggerEvent` with no
  registered listener is a no-op.  History entries ARE modelled, since they
  live inside the player state.  The exact text of a history entry uses
  `toString` in place of JavaScript number formatting; no property below
  depends on the text, only on which entries exist.
* The three static catalogs (locations, job types, random events) are
  declared per-instance in the source constructor but never mutated; they are
  modelled as top-level constants.
* The guard and dereference `this.locations[name]` walk the JS prototype
  chain: besides the four own catalog keys, the own property names of
  `Object.prototype` ("toString", "valueOf", …) yield inherited, truthy
  members.  `PropAccess` distinguishes entry / inherited member / undefined.
  On the inherited-member paths the source writes `undefined` and `NaN`
  numbers; `ℚ` has no such values, so they are recorded with the marker
  `nanValue`, and no theorem relies on the marker's numeric value.  (The
  other catalogs are immune: `acceptJob` iterates `Object.entries`, which
  lists own properties only, and the expense/skill guards use
  `hasOwnProperty`.)
-/

/-- Result of a JavaScript computation that can throw. -/
inductive JsError where
  | typeError
  deriving DecidableEq, Repr

/-- JavaScript `Math.round`: round half toward positive infinity. -/
def jsRound (q : ℚ) : ℚ := ((⌊q + 1/2⌋ : ℤ) : ℚ)

/-- A stream of uniform draws standing in for successive `Math.random()` calls. -/
def RandStream : Type := ℕ → ℚ

/-- `player.skills` (source lines 12–16). -/
structure Skills where
  education : ℚ
  experience : ℚ
  networking : ℚ
  deriving DecidableEq, Repr

/-- `player.finance` (source lines 17–22). -/
structure Finance where
  salary : ℚ
  savings : ℚ
  debt : ℚ
  investments : List ℚ
  deriving DecidableEq, Repr

/-- `player.expenses` (source lines 23–30): the fixed six-category mapping. -/
structure Expenses where
  housing : ℚ
  food : ℚ
  utilities : ℚ
  transportation : ℚ
  entertainment : ℚ
  other : ℚ
  deriving DecidableEq, Repr

/-- An entry pushed by `addToHistory` (source lines 375–381). -/
structure HistoryEntry where
  month : ℤ
  year : ℤ
  entry : String
  deriving DecidableEq, Repr

/-- The active job object built by `acceptJob` (source lines 196–200). -/
structure Job where
  title : String
  salary : ℚ
  monthsWorked : ℚ
  deriving DecidableEq, Repr

/-- `this.player` (source lines 9–32). -/
structure Player where
  location : Option String
  job : Option Job
  skills : Skills
  finance : Finance
  expenses : Expenses
  history : List HistoryEntry
  deriving DecidableEq, Repr

/-- The engine state: player plus game settings (source lines 9–38).
The listener registry is external behaviour and not modelled. -/
structure SimState where
  player : Player
  gameMonth : ℤ
  gameYear : ℤ
  difficultyLevel : String
  deriving DecidableEq, Repr

/-- A location-catalog entry (source lines 41–70). -/
structure Location where
  costMultiplier : ℚ
  jobOpportunities : ℚ
  salaryMultiplier : ℚ
  housingCost : ℚ
  description : String
  deriving DecidableEq, Repr

/-- A job-catalog entry (source lines 73–110). -/
structure JobType where
  eduReq : ℚ
  expReq : ℚ
  baseSalary : ℚ
  description : String
  deriving DecidableEq, Repr

/-- The `cost` field of a random event: either a plain number or a function of
the current player (source line 141 uses a function for the Bonus event). -/
inductive EventCost where
  | num (c : ℚ)
  | ofPlayer (f : Player → ℚ)

/-- A random-event catalog entry (source lines 113–144). -/
structure REvent where
  name : String
  description : String
  cost : EventCost
  probability : ℚ

/-- `this.locations` (source lines 41–70), in definition order. -/
def locations : List (String × Location) :=
  [("Big City",
    { costMultiplier := 1.5, jobOpportunities := 1.2, salaryMultiplier := 1.3,
      housingCost := 1500,
      description := "High cost of living but better job opportunities and salaries." }),
   ("Suburb",
    { costMultiplier := 1.2, jobOpportunities := 1.0, salaryMultiplier := 1.1,
      housingCost := 1200,
      description := "Balanced cost of living and job opportunities." }),
   ("Small Town",
    { costMultiplier := 0.8, jobOpportunities := 0.7, salaryMultiplier := 0.8,
      housingCost := 800,
      description := "Lower cost of living but fewer job opportunities and lower salaries." }),
   ("Rural Area",
    { costMultiplier := 0.6, jobOpportunities := 0.5, salaryMultiplier := 0.7,
      housingCost := 600,
      description := "Very low cost of living but limited job opportunities." })]

/-- `this.jobTypes` (source lines 73–110), in definition order. -/
def jobTypes : List (String × JobType) :=
  [("Entry Level Office",
    { eduReq := 1, expReq := 0, baseSalary := 30000,
      description := "Basic office job with minimal requirements." }),
   ("Retail",
    { eduReq := 0, expReq := 0, baseSalary := 25000,
      description := "Customer service role with no formal requirements." }),
   ("Skilled Trade",
    { eduReq := 1, expReq := 1, baseSalary := 45000,
      description := "Specialized skills with some experience required." }),
   ("Professional",
    { eduReq := 2, expReq := 1, baseSalary := 60000,
      description := "Professional position requiring education and experience." }),
   ("Management",
    { eduReq := 2, expReq := 3, baseSalary := 80000,
      description := "Leadership position with significant experience required." }),
   ("Executive",
    { eduReq := 3, expReq := 5, baseSalary := 120000,
      description := "Top-level position with extensive requirements." })]

/-- `this.randomEvents` (source lines 113–144), in definition order.  The
Bonus event computes its (negative) cost from the player: 5% of salary. -/
def randomEvents : List REvent :=
  [{ name := "Car Breakdown", description := "Your car needs repairs.",
     cost := .num 800, probability := 0.05 },
   { name := "Medical Emergency", description := "Unexpected medical bills.",
     cost := .num 1200, probability := 0.03 },
   { name := "Tax Refund", description := "You received a tax refund!",
     cost := .num (-500), probability := 0.04 },
   { name := "Family Emergency", description := "You need to help a family member.",
     cost := .num 600, probability := 0.03 },
   { name := "Bonus", description := "You received a performance bonus!",
     cost := .ofPlayer (fun p => -(p.finance.salary * 0.05)), probability := 0.06 }]

/-- The player built by the constructor (source lines 9–32). -/
def defaultPlayer : Player :=
  { location := none
    job := none
    skills := { education := 1, experience := 0, networking := 1 }
    finance := { salary := 0, savings := 2000, debt := 0, investments := [] }
    expenses := { housing := 0, food := 0, utilities := 0, transportation := 0,
                  entertainment := 0, other := 0 }
    history := [] }

/-- The engine state right after construction (source lines 7–38). -/
def defaultState : SimState :=
  { player := defaultPlayer, gameMonth := 1, gameYear := 1, difficultyLevel := "normal" }

/-- `addToHistory(entry)` (source lines 375–381): push a dated entry. -/
def addToHistory (s : SimState) (entry : String) : SimState :=
  { s with player := { s.player with
      history := s.player.history ++ [{ month := s.gameMonth, year := s.gameYear, entry := entry }] } }

/-- The body of `updateBasicExpenses()` (source lines 325–334) once the
location entry has been dereferenced. -/
def updateBasicExpensesCore (loc : Location) (s : SimState) : SimState :=
  { s with player := { s.player with expenses := { s.player.expenses with
      food := jsRound (400 * loc.costMultiplier),
      utilities := jsRound (200 * loc.costMultiplier),
      transportation := jsRound (300 * loc.costMultiplier),
      entertainment := jsRound (200 * loc.costMultiplier),
      other := jsRound (100 * loc.costMultiplier) } } }

/-- The own property names of `Object.prototype` (ECMA-262, including the
Annex B accessor properties).  A JavaScript property read on a plain object
literal such as `this.locations` falls back to these inherited members when
the key is not an own key, and every one of them yields a truthy value (a
function, or `Object.prototype` itself for `__proto__`). -/
def objectPrototypeKeys : List String :=
  ["constructor", "hasOwnProperty", "isPrototypeOf", "propertyIsEnumerable",
   "toLocaleString", "toString", "valueOf", "__defineGetter__",
   "__defineSetter__", "__lookupGetter__", "__lookupSetter__", "__proto__"]

/-- Marker for the IEEE `NaN` and `undefined` numeric values that the source
writes on its prototype-chain paths (`housingCost` of an inherited function
is `undefined`, and `Math.round(400 * undefined)` is `NaN`).  `ℚ` has no
such values; every theorem below either avoids these paths or inspects only
fields these paths do not touch, so no proof relies on the marker's numeric
value. -/
def nanValue : ℚ := 0

/-- The three possible outcomes of the JS property access
`this.locations[name]`: an own catalog entry, a truthy member inherited from
`Object.prototype`, or `undefined`. -/
inductive PropAccess where
  | entry (loc : Location)
  | protoMember
  | missing
  deriving Repr

/-- The property access `this.locations[name]`, prototype chain included. -/
def locationProp (name : String) : PropAccess :=
  match List.lookup name locations with
  | some loc => .entry loc
  | none => if name ∈ objectPrototypeKeys then .protoMember else .missing

/-- `setLocation(locationName)` (source lines 148–160).  The guard is the
truthiness of `this.locations[locationName]`: a catalog name sets the
location, the housing expense and the derived basic expenses and returns
`true`; an inherited `Object.prototype` name also passes the guard, so the
source stores that name as the location and overwrites housing with
`undefined` and the five derived expenses with `NaN` (marked `nanValue`),
returning `true`; only a genuinely undefined access returns `false` with no
change. -/
def setLocation (s : SimState) (locationName : String) : Bool × SimState :=
  match locationProp locationName with
  | .entry loc =>
      let s1 := { s with player := { s.player with
          location := some locationName,
          expenses := { s.player.expenses with housing := loc.housingCost } } }
      (true, updateBasicExpensesCore loc s1)
  | .protoMember =>
      let s1 := { s with player := { s.player with
          location := some locationName,
          expenses := { housing := nanValue, food := nanValue, utilities := nanValue,
                        transportation := nanValue, entertainment := nanValue,
                        other := nanValue } } }
      (true, s1)
  | .missing => (false, s)

/-- `this.locations[this.player.location]`: `undefined` when the player has
no location (`this.locations[null]` reads the absent key "null"), otherwise
the access for the stored name, prototype chain included. -/
def lookupLocation (s : SimState) : PropAccess :=
  match s.player.location with
  | none => .missing
  | some name => locationProp name

/-- The arithmetic of `calculateSalary` (source lines 209–218) once the
location entry has been dereferenced; consumes one random draw. -/
def calcSalaryCore (rand : RandStream) (k : ℕ) (loc : Location) (sk : Skills)
    (baseSalary : ℚ) : ℚ × ℕ :=
  let educationBonus := sk.education * 0.05
  let experienceBonus := sk.experience * 0.03
  let randomFactor := 0.9 + rand k * 0.2
  (jsRound (baseSalary * loc.salaryMultiplier * (1 + educationBonus + experienceBonus) * randomFactor),
   k + 1)

/-- `calculateSalary(baseSalary)` (source lines 209–218): reading
`.salaryMultiplier` of `undefined` throws a `TypeError`; on an inherited
prototype member the multiplier is `undefined`, the product is `NaN`
(marked `nanValue`) and the call returns normally, still consuming its one
draw for the random factor. -/
def calculateSalary (rand : RandStream) (k : ℕ) (s : SimState) (baseSalary : ℚ) :
    Except JsError (ℚ × ℕ) :=
  match lookupLocation s with
  | .missing => .error .typeError
  | .protoMember => .ok (nanValue, k + 1)
  | .entry loc => .ok (calcSalaryCore rand k loc s.player.skills baseSalary)

/-- `acceptJob(jobTitle)` (source lines 191–206): unknown title returns
`false` with no state change and no draw consumed; a known title computes the
salary (which throws when no location is set), replaces the job, mirrors the
salary into finance, and appends a history entry. -/
def acceptJob (rand : RandStream) (k : ℕ) (s : SimState) (jobTitle : String) :
    Except JsError (Bool × SimState × ℕ) :=
  match List.lookup jobTitle jobTypes with
  | none => .ok (false, s, k)
  | some details =>
    match calculateSalary rand k s details.baseSalary with
    | .error e => .error e
    | .ok (sal, k1) =>
      let s1 := { s with player := { s.player with
          job := some { title := jobTitle, salary := sal, monthsWorked := 0 },
          finance := { s.player.finance with salary := sal } } }
      let s2 := addToHistory s1
        ("Got a job as " ++ jobTitle ++ " with annual salary of " ++ toString sal)
      .ok (true, s2, k1)

/-- The body of `tryForRaise()` (source lines 221–246) once the active job
has been dereferenced; `job` is the value of `this.player.job`.  Consumes one
draw for the success roll and, on success, one more for the raise percent. -/
def tryForRaiseCore (rand : RandStream) (k : ℕ) (job : Job) (s : SimState) :
    ℚ × SimState × ℕ :=
  let chance := 0.05 + job.monthsWorked * 0.002 + s.player.skills.experience * 0.01
      + s.player.skills.networking * 0.01
  if rand k < chance then
    let raisePercent := 0.03 + rand (k + 1) * 0.05
    let oldSalary := s.player.finance.salary
    let newSalary := jsRound (oldSalary * (1 + raisePercent))
    let s1 := { s with player := { s.player with
        finance := { s.player.finance with salary := newSalary },
        job := some { job with salary := newSalary } } }
    let s2 := addToHistory s1 ("Got a raise of " ++ toString (newSalary - oldSalary))
    (newSalary - oldSalary, s2, k + 2)
  else
    (0, s, k + 1)

/-- `tryForRaise()` (source lines 221–246): reading `monthsWorked` from a
`null` job throws a `TypeError`. -/
def tryForRaise (rand : RandStream) (k : ℕ) (s : SimState) :
    Except JsError (ℚ × SimState × ℕ) :=
  match s.player.job with
  | none => .error .typeError
  | some job => .ok (tryForRaiseCore rand k job s)

/-- Evaluate an event cost field: a number is used as is, a function is
applied to the current player (source line 300). -/
def evalCost (c : EventCost) (p : Player) : ℚ :=
  match c with
  | .num a => a
  | .ofPlayer f => f p

/-- The body of one triggered random event (source lines 299–311): debit the
cost from savings and append a history entry. -/
def applyEvent (ev : REvent) (s : SimState) : SimState :=
  let cost := evalCost ev.cost s.player
  let s1 := { s with player := { s.player with
      finance := { s.player.finance with savings := s.player.finance.savings - cost } } }
  addToHistory s1 ("Random event: " ++ ev.name ++ " - " ++ ev.description)

/-- The scan of `processRandomEvent()` (source lines 296–317) over a list of
events: one draw per event inspected, stopping at the first trigger. -/
def runEvents (rand : RandStream) : ℕ → List REvent → SimState → SimState × ℕ
  | k, [], s => (s, k)
  | k, ev :: rest, s =>
    if rand k < ev.probability then (applyEvent ev s, k + 1)
    else runEvents rand (k + 1) rest s

/-- `processRandomEvent()` (source lines 296–317). -/
def processRandomEvent (rand : RandStream) (k : ℕ) (s : SimState) : SimState × ℕ :=
  runEvents rand k randomEvents s

/-- `calculateTotalMonthlyExpenses()` (source lines 320–322):
`Object.values(this.player.expenses)` in property-declaration order. -/
def expenseValues (e : Expenses) : List ℚ :=
  [e.housing, e.food, e.utilities, e.transportation, e.entertainment, e.other]

/-- `calculateTotalMonthlyExpenses()` (source lines 320–322). -/
def calculateTotalMonthlyExpenses (s : SimState) : ℚ :=
  (expenseValues s.player.expenses).foldl (fun total expense => total + expense) 0

/-- `updateExpense(category, amount)` (source lines 337–348): overwrite a
recognized category (the `hasOwnProperty` guard) and return `true`; unknown
categories return `false` with no change. -/
def updateExpense (s : SimState) (category : String) (amount : ℚ) : Bool × SimState :=
  if category = "housing" then
    (true, { s with player := { s.player with expenses := { s.player.expenses with housing := amount } } })
  else if category = "food" then
    (true, { s with player := { s.player with expenses := { s.player.expenses with food := amount } } })
  else if category = "utilities" then
    (true, { s with player := { s.player with expenses := { s.player.expenses with utilities := amount } } })
  else if category = "transportation" then
    (true, { s with player := { s.player with expenses := { s.player.expenses with transportation := amount } } })
  else if category = "entertainment" then
    (true, { s with player := { s.player with expenses := { s.player.expenses with entertainment := amount } } })
  else if category = "other" then
    (true, { s with player := { s.player with expenses := { s.player.expenses with other := amount } } })
  else
    (false, s)

/-- `improveSkill(skillName, amount = 1)` (source lines 351–372): for a
recognized skill, cost is `500 * amount * (currentLevel + 1)`; with enough
savings, debit the cost, raise the skill, append history, return `true`;
otherwise (and for unknown skills) return `false` with no change. -/
def improveSkill (s : SimState) (skillName : String) (amount : ℚ) : Bool × SimState :=
  if skillName = "education" then
    let cost := 500 * amount * (s.player.skills.education + 1)
    if cost ≤ s.player.finance.savings then
      let s1 := { s with player := { s.player with
          finance := { s.player.finance with savings := s.player.finance.savings - cost },
          skills := { s.player.skills with education := s.player.skills.education + amount } } }
      (true, addToHistory s1 ("Improved education skill to level "
        ++ toString (s.player.skills.education + amount)))
    else (false, s)
  else if skillName = "experience" then
    let cost := 500 * amount * (s.player.skills.experience + 1)
    if cost ≤ s.player.finance.savings then
      let s1 := { s with player := { s.player with
          finance := { s.player.finance with savings := s.player.finance.savings - cost },
          skills := { s.player.skills with experience := s.player.skills.experience + amount } } }
      (true, addToHistory s1 ("Improved experience skill to level "
        ++ toString (s.player.skills.experience + amount)))
    else (false, s)
  else if skillName = "networking" then
    let cost := 500 * amount * (s.player.skills.networking + 1)
    if cost ≤ s.player.finance.savings then
      let s1 := { s with player := { s.player with
          finance := { s.player.finance with savings := s.player.finance.savings - cost },
          skills := { s.player.skills with networking := s.player.skills.networking + amount } } }
      (true, addToHistory s1 ("Improved networking skill to level "
        ++ toString (s.player.skills.networking + amount)))
    else (false, s)
  else (false, s)

/-- One item pushed by `getAvailableJobs()` (source lines 178–182): the job
title, the spread catalog details, and the adjusted salary. -/
structure AvailableJob where
  title : String
  details : JobType
  adjustedSalary : ℚ
  deriving DecidableEq, Repr

/-- The loop of `getAvailableJobs()` (source lines 167–184): one draw per
catalog job for the visibility roll, plus one more inside `calculateSalary`
for each job that passes. -/
def availableJobsAux (rand : RandStream) (loc : Location) (sk : Skills) :
    ℕ → List (String × JobType) → List AvailableJob × ℕ
  | k, [] => ([], k)
  | k, (jobTitle, jobDetails) :: rest =>
    let educationMet := jobDetails.eduReq ≤ sk.education
    let experienceMet := jobDetails.expReq ≤ sk.experience
    let chance := rand k * loc.jobOpportunities
    let qualifiedBonus : ℚ := if educationMet ∧ experienceMet then 0.3 else 0
    let networkingBonus := sk.networking * 0.05
    if chance + qualifiedBonus + networkingBonus > 0.5 then
      let (sal, k1) := calcSalaryCore rand (k + 1) loc sk jobDetails.baseSalary
      let (restJobs, k2) := availableJobsAux rand loc sk k1 rest
      ({ title := jobTitle, details := jobDetails, adjustedSalary := sal } :: restJobs, k2)
    else
      availableJobsAux rand loc sk (k + 1) rest

/-- `getAvailableJobs()` (source lines 163–188): dereferencing the location
entry of a player with no location throws a `TypeError` (line 165).  On an
inherited prototype member, `jobOpportunities` is `undefined`, every score
`Math.random() * undefined + bonus` is `NaN`, and `NaN > 0.5` is false, so
the loop draws once per catalog job, pushes nothing, and returns the empty
list normally. -/
def getAvailableJobs (rand : RandStream) (k : ℕ) (s : SimState) :
    Except JsError (List AvailableJob × ℕ) :=
  match lookupLocation s with
  | .missing => .error .typeError
  | .protoMember => .ok ([], k + jobTypes.length)
  | .entry loc => .ok (availableJobsAux rand loc s.player.skills k jobTypes)

/-- The `{isBroke, month, year}` record returned by `processMonth()`
(source lines 288–292). -/
structure MonthResult where
  isBroke : Bool
  month : ℤ
  year : ℤ
  deriving DecidableEq, Repr

/-- The income-and-raise phase of `processMonth()` (source lines 251–258):
with an active job, credit `round(salary/12)`, increment `monthsWorked`, and
attempt a raise; without one, do nothing. -/
def incomeRaiseStep (rand : RandStream) (k : ℕ) (s : SimState) : SimState × ℕ :=
  match s.player.job with
  | none => (s, k)
  | some job =>
    let monthlyIncome := jsRound (s.player.finance.salary / 12)
    let jobInc := { job with monthsWorked := job.monthsWorked + 1 }
    let sA := { s with player := { s.player with
        finance := { s.player.finance with savings := s.player.finance.savings + monthlyIncome },
        job := some jobInc } }
    let r := tryForRaiseCore rand k jobInc sA
    (r.2.1, r.2.2)

/-- The expense phase of `processMonth()` (source lines 260–262): debit the
total monthly expenses from savings. -/
def expenseStep (s : SimState) : SimState :=
  { s with player := { s.player with finance := { s.player.finance with
      savings := s.player.finance.savings - calculateTotalMonthlyExpenses s } } }

/-- The calendar phase of `processMonth()` (source lines 268–272):
`gameMonth++`, wrapping past 12 into month 1 of the next year. -/
def calendarStep (s : SimState) : SimState :=
  if s.gameMonth + 1 > 12 then { s with gameMonth := 1, gameYear := s.gameYear + 1 }
  else { s with gameMonth := s.gameMonth + 1 }

/-- `processMonth()` (source lines 249–293): income and raise, then expenses,
then at most one random event, then the calendar update, a summary history
entry, and the `{isBroke, month, year}` result. -/
def processMonth (rand : RandStream) (k : ℕ) (s : SimState) :
    MonthResult × SimState × ℕ :=
  let r1 := incomeRaiseStep rand k s
  let s1 := r1.1
  let monthlyExpenses := calculateTotalMonthlyExpenses s1
  let s2 := expenseStep s1
  let r3 := processRandomEvent rand r1.2 s2
  let s4 := calendarStep r3.1
  let isBroke := decide (s4.player.finance.savings < 0)
  let income : ℚ := match s4.player.job with
    | some _ => jsRound (s4.player.finance.salary / 12)
    | none => 0
  let s5 := addToHistory s4 ("Month " ++ toString s4.gameMonth ++ ", Year "
      ++ toString s4.gameYear ++ ": Income " ++ toString income ++ ", Expenses "
      ++ toString monthlyExpenses ++ ", Savings " ++ toString s4.player.finance.savings)
  ({ isBroke := isBroke, month := s5.gameMonth, year := s5.gameYear }, s5, r3.2)

/-- The snapshot returned by `getGameState()` (source lines 398–405). -/
structure GameSnapshot where
  player : Player
  gameMonth : ℤ
  gameYear : ℤ
  difficultyLevel : String
  deriving DecidableEq, Repr

/-- `getGameState()` (source lines 398–405). -/
def getGameState (s : SimState) : GameSnapshot :=
  { player := s.player, gameMonth := s.gameMonth, gameYear := s.gameYear,
    difficultyLevel := s.difficultyLevel }

/-- `loadGameState(state)` (source lines 408–414): replace player, calendar
and difficulty wholesale from the snapshot. -/
def loadGameState (_s : SimState) (st : GameSnapshot) : SimState :=
  { player := st.player, gameMonth := st.gameMonth, gameYear := st.gameYear,
    difficultyLevel := st.difficultyLevel }

/-- `resetGame()` (source lines 417–420).  Its body runs `this.constructor()`;
in JavaScript, calling a class constructor without `new` throws a `TypeError`
immediately ("Class constructor FinancialSimulation cannot be invoked without
new"), so the call aborts before any state is touched and before the
`gameReset` event would be emitted. -/
def resetGame (_s : SimState) : Except JsError SimState :=
  .error .typeError

/-- The six expense categories stored by the constructor, in declaration
order (source lines 23–30). -/
def expenseCategories : List String :=
  ["housing", "food", "utilities", "transportation", "entertainment", "other"]

/-- The three skill names stored by the constructor (source lines 12–16). -/
def skillNames : List String := ["education", "experience", "networking"]

/-- The current level of a named skill (0 for unknown names). -/
def skillLevel (s : SimState) (name : String) : ℚ :=
  if name = "education" then s.player.skills.education
  else if name = "experience" then s.player.skills.experience
  else if name = "networking" then s.player.skills.networking
  else 0

/-- Placeholder event used as the `getD` default when indexing the catalog. -/
def noEvent : REvent :=
  { name := "", description := "", cost := .num 0, probability := 0 }

/-- The engine state after `setLocation("Big City")` on a fresh engine. -/
def bigCityState : SimState := (setLocation defaultState "Big City").2

/-- A fresh engine whose savings have been reduced to 0 (for example by
`updateExpense` and `processMonth`); used to exercise insufficient funds. -/
def brokeState : SimState :=
  { defaultState with player := { defaultPlayer with
      finance := { defaultPlayer.finance with savings := 0 } } }

/-- `bigCityState`, written out: housing 1500 and the five derived basic
expenses at cost multiplier 1.5. -/
theorem bigCityState_eq : bigCityState =
    { player := { location := some "Big City", job := none,
                  skills := { education := 1, experience := 0, networking := 1 },
                  finance := { salary := 0, savings := 2000, debt := 0, investments := [] },
                  expenses := { housing := 1500, food := 600, utilities := 300,
                                transportation := 450, entertainment := 300, other := 150 },
                  history := [] },
      gameMonth := 1, gameYear := 1, difficultyLevel := "normal" } := by
  simp only [bigCityState, setLocation, locationProp, defaultState, defaultPlayer,
    locations, updateBasicExpensesCore, List.lookup]
  norm_num [jsRound]

/-- Claim C8: loading the snapshot taken from an engine restores an engine
whose player, calendar and difficulty are identical to the original. -/
theorem loadGameState_getGameState_roundTrip (s : SimState) :
    loadGameState s (getGameState s) = s := rfl

/-- Claim C1 (code evaluation): `resetGame` never restores the defaults and
never returns normally — its `this.constructor()` call throws a `TypeError`
for every engine state, so no state is reset and no `gameReset` notification
is emitted. -/
theorem resetGame_always_throws (s : SimState) :
    resetGame s = Except.error JsError.typeError ∧
      ∀ t : SimState, resetGame s ≠ Except.ok t :=
  ⟨rfl, fun _ h => Except.noConfusion h⟩

/-- The multiset of sums obtainable by adding up exactly five of the stored
expense category values (one for each length-5 selection of stored values,
in order). -/
def sumsOfFiveExpenseValues (e : Expenses) : List ℚ :=
  ((expenseValues e).sublists.filter (fun l => l.length == 5)).map List.sum

/-- Claim C3 (counterexample): after `setLocation("Big City")` on a fresh
engine, the expense mapping stores six category values, not five, and the
total monthly expenses (3300) differ from the sum of every choice of five of
the stored values — so the total is not "the sum of the five stored expense
category values". -/
theorem calculateTotalMonthlyExpenses_not_a_sum_of_five :
    (expenseValues bigCityState.player.expenses).length = 6 ∧
    calculateTotalMonthlyExpenses bigCityState ∉
      sumsOfFiveExpenseValues bigCityState.player.expenses := by
  rw [bigCityState_eq]
  refine ⟨rfl, ?_⟩
  simp only [sumsOfFiveExpenseValues, expenseValues, calculateTotalMonthlyExpenses,
    List.sublists_cons, List.sublists_nil]
  simp
  norm_num

/-- Claim C3 (amended): for every engine state,
`calculateTotalMonthlyExpenses()` equals the sum of the six stored expense
category values. -/
theorem calculateTotalMonthlyExpenses_eq_sum_of_six (s : SimState) :
    calculateTotalMonthlyExpenses s =
      s.player.expenses.housing + s.player.expenses.food + s.player.expenses.utilities +
        s.player.expenses.transportation + s.player.expenses.entertainment +
        s.player.expenses.other := by
  simp [calculateTotalMonthlyExpenses, expenseValues]

/-- Claim C2 (counterexample): the claim fails on `setLocation` at the
unknown location name "toString" — not a catalog key, yet
`this.locations["toString"]` finds the inherited, truthy
`Object.prototype.toString`, so the source takes the success branch: it
returns `true` (not a falsy failure indicator) and mutates the state,
storing "toString" as the player's location (and corrupting every expense
with `undefined`/`NaN`). -/
theorem setLocation_prototypeKey_counterexample :
    List.lookup "toString" locations = none ∧
    (setLocation defaultState "toString").1 = true ∧
    (setLocation defaultState "toString").2.player.location = some "toString" ∧
    (setLocation defaultState "toString").2 ≠ defaultState := by
  refine ⟨rfl, rfl, rfl, ?_⟩
  intro h
  have : (setLocation defaultState "toString").2.player.location
      = defaultState.player.location := by rw [h]
  simp [setLocation, locationProp, locations, objectPrototypeKeys, defaultState,
    defaultPlayer, List.lookup] at this

/-- Claim C2 (amended): every fallible operation signals failure with a falsy
return instead of throwing, and on failure the whole engine state is
unchanged: `setLocation` with an unknown location name — provided the name is
not an own property name of `Object.prototype`, for which the truthiness
guard erroneously succeeds —, `acceptJob` with an unknown title (consuming no
random draw), `updateExpense` with an unknown category, `improveSkill` with
an unknown skill, and `improveSkill` with savings below the cost
`500 * amount * (currentLevel + 1)`. -/
theorem failures_leave_state_unchanged (s : SimState) :
    (∀ name, List.lookup name locations = none → name ∉ objectPrototypeKeys →
      setLocation s name = (false, s)) ∧
    (∀ (rand : RandStream) (k : ℕ) (title : String), List.lookup title jobTypes = none →
      acceptJob rand k s title = Except.ok (false, s, k)) ∧
    (∀ c a, c ∉ expenseCategories → updateExpense s c a = (false, s)) ∧
    (∀ n a, n ∉ skillNames → improveSkill s n a = (false, s)) ∧
    (∀ n a, n ∈ skillNames → s.player.finance.savings < 500 * a * (skillLevel s n + 1) →
      improveSkill s n a = (false, s)) := by
  refine ⟨?_, ?_, ?_, ?_, ?_⟩
  · intro name h h2
    have hp : locationProp name = PropAccess.missing := by
      simp [locationProp, h, h2]
    simp [setLocation, hp]
  · intro rand k title h
    simp [acceptJob, h]
  · intro c a h
    simp only [expenseCategories, List.mem_cons, List.not_mem_nil, or_false, not_or] at h
    obtain ⟨h1, h2, h3, h4, h5, h6⟩ := h
    simp [updateExpense, h1, h2, h3, h4, h5, h6]
  · intro n a h
    simp only [skillNames, List.mem_cons, List.not_mem_nil, or_false, not_or] at h
    obtain ⟨h1, h2, h3⟩ := h
    simp [improveSkill, h1, h2, h3]
  · intro n a hmem hlt
    simp only [skillNames, List.mem_cons, List.not_mem_nil, or_false] at hmem
    rcases hmem with h | h | h <;> subst h <;>
      simp_all [improveSkill, skillLevel, not_le.mpr]

/-- Witness for C2 at concrete inputs: an unknown location, job title,
expense category and skill name on a fresh engine, and an education upgrade
on an engine with zero savings. -/
theorem failures_leave_state_unchanged_witness :
    setLocation defaultState "Moon" = (false, defaultState) ∧
    acceptJob (fun _ => 0) 0 defaultState "Astronaut" = Except.ok (false, defaultState, 0) ∧
    updateExpense defaultState "rent" 100 = (false, defaultState) ∧
    improveSkill defaultState "cooking" 1 = (false, defaultState) ∧
    improveSkill brokeState "education" 1 = (false, brokeState) :=
  ⟨(failures_leave_state_unchanged defaultState).1 "Moon" rfl (by decide),
   (failures_leave_state_unchanged defaultState).2.1 (fun _ => 0) 0 "Astronaut" rfl,
   (failures_leave_state_unchanged defaultState).2.2.1 "rent" 100 (by decide),
   (failures_leave_state_unchanged defaultState).2.2.2.1 "cooking" 1 (by decide),
   (failures_leave_state_unchanged brokeState).2.2.2.2 "education" 1 (by decide)
     (by norm_num [brokeState, skillLevel, defaultPlayer])⟩

/-- Claim C6: `improveSkill("education", 1)` fails with no change at all when
savings are below the cost `500 * (oldLevel + 1)`; with enough savings it
succeeds, raises the education level by exactly 1, debits exactly
`500 * (oldLevel + 1)` from savings, and appends one history entry. -/
theorem improveSkill_education_cost_contract (s : SimState) :
    (s.player.finance.savings < 500 * (s.player.skills.education + 1) →
      improveSkill s "education" 1 = (false, s)) ∧
    (500 * (s.player.skills.education + 1) ≤ s.player.finance.savings →
      (improveSkill s "education" 1).1 = true ∧
      (improveSkill s "education" 1).2.player.skills.education
        = s.player.skills.education + 1 ∧
      (improveSkill s "education" 1).2.player.skills.experience
        = s.player.skills.experience ∧
      (improveSkill s "education" 1).2.player.skills.networking
        = s.player.skills.networking ∧
      (improveSkill s "education" 1).2.player.finance.savings
        = s.player.finance.savings - 500 * (s.player.skills.education + 1) ∧
      (improveSkill s "education" 1).2.player.history.length
        = s.player.history.length + 1) := by
  have hmul : (500 : ℚ) * 1 * (s.player.skills.education + 1)
      = 500 * (s.player.skills.education + 1) := by ring
  constructor
  · intro h
    have hc : ¬ ((500 : ℚ) * 1 * (s.player.skills.education + 1)
        ≤ s.player.finance.savings) := by
      rw [hmul]; exact not_le.mpr h
    simp only [improveSkill, if_true]
    rw [if_neg hc]
  · intro h
    have h' : (500 : ℚ) * 1 * (s.player.skills.education + 1)
        ≤ s.player.finance.savings := by
      rw [hmul]; exact h
    simp only [improveSkill, if_true]
    rw [if_pos h']
    refine ⟨rfl, rfl, rfl, rfl, ?_, ?_⟩
    · show s.player.finance.savings - 500 * 1 * (s.player.skills.education + 1)
        = s.player.finance.savings - 500 * (s.player.skills.education + 1)
      ring
    · simp [addToHistory]

/-- Witness for C6: on a fresh engine (savings 2000, education 1, cost 1000)
the upgrade succeeds with the stated effects; on `brokeState` (savings 0) it
fails and changes nothing. -/
theorem improveSkill_education_cost_contract_witness :
    improveSkill brokeState "education" 1 = (false, brokeState) ∧
    (improveSkill defaultState "education" 1).1 = true ∧
    (improveSkill defaultState "education" 1).2.player.skills.education = 1 + 1 ∧
    (improveSkill defaultState "education" 1).2.player.finance.savings = 2000 - 500 * (1 + 1) :=
  ⟨(improveSkill_education_cost_contract brokeState).1
      (by norm_num [brokeState, defaultPlayer]),
   ((improveSkill_education_cost_contract defaultState).2
      (by norm_num [defaultState, defaultPlayer])).1,
   ((improveSkill_education_cost_contract defaultState).2
      (by norm_num [defaultState, defaultPlayer])).2.1,
   ((improveSkill_education_cost_contract defaultState).2
      (by norm_num [defaultState, defaultPlayer])).2.2.2.2.1⟩

/-- Claim C7: with every random draw equal to 0, `calculateSalary(30000)` on
an engine located in "Big City" (salary multiplier 1.3) with education 1 and
experience 0 returns `round(30000 * 1.3 * 1.05 * 0.9)`, i.e. 36855, and
consumes exactly one draw. -/
theorem calculateSalary_bigCity_seeded_zero (s : SimState) (k : ℕ)
    (hloc : s.player.location = some "Big City")
    (hedu : s.player.skills.education = 1)
    (hexp : s.player.skills.experience = 0) :
    calculateSalary (fun _ => 0) k s 30000
      = Except.ok (jsRound (30000 * 1.3 * 1.05 * 0.9), k + 1) ∧
    jsRound (30000 * 1.3 * 1.05 * 0.9) = 36855 := by
  constructor
  · simp only [calculateSalary, lookupLocation, hloc, locationProp, locations,
      List.lookup]
    simp only [calcSalaryCore, hedu, hexp]
    norm_num
  · norm_num [jsRound]

/-- Witness for C7: the state after `setLocation("Big City")` on a fresh
engine has the required location and skill levels, and the call returns
36855. -/
theorem calculateSalary_bigCity_seeded_zero_witness :
    calculateSalary (fun _ => 0) 0 bigCityState 30000 = Except.ok (36855, 0 + 1) := by
  have h := calculateSalary_bigCity_seeded_zero bigCityState 0 rfl rfl rfl
  rw [h.1, h.2]

/-- Claim C10: with no location set, `getAvailableJobs`, `calculateSalary`,
and `acceptJob` with a valid title all throw a `TypeError` (instead of
returning a failure indicator); with no active job, `tryForRaise` throws a
`TypeError` reading `monthsWorked`.  These operations only return normally
under the unstated preconditions that a location (resp. a job) exists. -/
theorem nullLocation_nullJob_throw (rand : RandStream) (k : ℕ) (s : SimState)
    (baseSalary : ℚ) (title : String) :
    (s.player.location = none →
      calculateSalary rand k s baseSalary = Except.error JsError.typeError ∧
      getAvailableJobs rand k s = Except.error JsError.typeError ∧
      ((List.lookup title jobTypes).isSome →
        acceptJob rand k s title = Except.error JsError.typeError)) ∧
    (s.player.job = none →
      tryForRaise rand k s = Except.error JsError.typeError) := by
  constructor
  · intro hloc
    have hlk : lookupLocation s = PropAccess.missing := by simp [lookupLocation, hloc]
    refine ⟨by simp [calculateSalary, hlk], by simp [getAvailableJobs, hlk], ?_⟩
    intro hsome
    obtain ⟨details, hdet⟩ := Option.isSome_iff_exists.mp hsome
    simp [acceptJob, hdet, calculateSalary, hlk]
  · intro hjob
    simp [tryForRaise, hjob]

/-- Witness for C10 on a fresh engine, which has neither location nor job:
all four operations throw. -/
theorem nullLocation_nullJob_throw_witness :
    calculateSalary (fun _ => 0) 0 defaultState 30000 = Except.error JsError.typeError ∧
    getAvailableJobs (fun _ => 0) 0 defaultState = Except.error JsError.typeError ∧
    acceptJob (fun _ => 0) 0 defaultState "Retail" = Except.error JsError.typeError ∧
    tryForRaise (fun _ => 0) 0 defaultState = Except.error JsError.typeError :=
  ⟨((nullLocation_nullJob_throw (fun _ => 0) 0 defaultState 30000 "Retail").1 rfl).1,
   ((nullLocation_nullJob_throw (fun _ => 0) 0 defaultState 30000 "Retail").1 rfl).2.1,
   ((nullLocation_nullJob_throw (fun _ => 0) 0 defaultState 30000 "Retail").1 rfl).2.2 rfl,
   (nullLocation_nullJob_throw (fun _ => 0) 0 defaultState 30000 "Retail").2 rfl⟩

/-- Scanning any event list: if the draws fail every event before index `i`
and satisfy the event at `i`, the scan applies exactly that event and stops,
having consumed exactly `i + 1` draws. -/
theorem runEvents_first_trigger (rand : RandStream) :
    ∀ (evs : List REvent) (k : ℕ) (s : SimState) (i : ℕ),
      i < evs.length →
      (∀ j, j < i → ¬ rand (k + j) < ((evs.getD j noEvent).probability)) →
      rand (k + i) < ((evs.getD i noEvent).probability) →
      runEvents rand k evs s = (applyEvent (evs.getD i noEvent) s, k + i + 1) := by
  intro evs
  induction evs with
  | nil =>
    intro k s i hi
    simp at hi
  | cons ev rest ih =>
    intro k s i hi hfirst htrig
    cases i with
    | zero =>
      simp only [List.getD_cons_zero] at htrig ⊢
      simp only [Nat.add_zero] at htrig
      rw [runEvents, if_pos htrig]
    | succ j =>
      have h0 : ¬ rand k < ev.probability := by
        have := hfirst 0 (Nat.succ_pos j)
        simpa using this
      rw [runEvents, if_neg h0]
      have harith : ∀ m : ℕ, k + 1 + m = k + (m + 1) := by omega
      have := ih (k + 1) s j (by simpa [Nat.succ_lt_succ_iff] using hi)
        (fun j' hj' => by
          have := hfirst (j' + 1) (Nat.succ_lt_succ hj')
          simpa [harith j'] using this)
        (by
          have := htrig
          simpa [harith j] using this)
      simpa [harith j, List.getD_cons_succ] using this

/-- Claim C4: one call to `processRandomEvent()` fires at most one event: if
the draws reject every event before catalog index `i` and satisfy the event
at `i`, then exactly that earliest qualifying event is applied, its (possibly
negative) cost is subtracted from savings — a negative cost increases
savings —, one history entry is appended, and the scan stops having consumed
exactly `i + 1` draws, so no later catalog event is evaluated. -/
theorem processRandomEvent_at_most_one_event (rand : RandStream) (k : ℕ) (s : SimState)
    (i : ℕ) (hi : i < randomEvents.length)
    (hfirst : ∀ j, j < i → ¬ rand (k + j) < ((randomEvents.getD j noEvent).probability))
    (htrig : rand (k + i) < ((randomEvents.getD i noEvent).probability)) :
    processRandomEvent rand k s = (applyEvent (randomEvents.getD i noEvent) s, k + i + 1) ∧
    (applyEvent (randomEvents.getD i noEvent) s).player.finance.savings
      = s.player.finance.savings - evalCost ((randomEvents.getD i noEvent).cost) s.player ∧
    (evalCost ((randomEvents.getD i noEvent).cost) s.player < 0 →
      s.player.finance.savings
        < (applyEvent (randomEvents.getD i noEvent) s).player.finance.savings) ∧
    (applyEvent (randomEvents.getD i noEvent) s).player.history.length
      = s.player.history.length + 1 := by
  refine ⟨runEvents_first_trigger rand randomEvents k s i hi hfirst htrig, rfl, ?_, ?_⟩
  · intro hneg
    have : (applyEvent (randomEvents.getD i noEvent) s).player.finance.savings
        = s.player.finance.savings - evalCost ((randomEvents.getD i noEvent).cost) s.player := rfl
    rw [this]
    linarith
  · simp [applyEvent, addToHistory]

/-- Witness for C4: with every draw 0 on a fresh engine, the first catalog
event (Car Breakdown, probability 0.05) fires, and exactly one draw is
consumed. -/
theorem processRandomEvent_at_most_one_event_witness :
    processRandomEvent (fun _ => 0) 0 defaultState
      = (applyEvent (randomEvents.getD 0 noEvent) defaultState, 0 + 0 + 1) ∧
    (applyEvent (randomEvents.getD 0 noEvent) defaultState).player.history.length
      = defaultState.player.history.length + 1 :=
  ⟨(processRandomEvent_at_most_one_event (fun _ => 0) 0 defaultState 0
      (by simp [randomEvents])
      (fun j hj => absurd hj (Nat.not_lt_zero j))
      (by norm_num [randomEvents])).1,
   (processRandomEvent_at_most_one_event (fun _ => 0) 0 defaultState 0
      (by simp [randomEvents])
      (fun j hj => absurd hj (Nat.not_lt_zero j))
      (by norm_num [randomEvents])).2.2.2⟩

/-- `tryForRaiseCore` never touches the calendar. -/
theorem tryForRaiseCore_gameMonth (rand : RandStream) (k : ℕ) (job : Job) (s : SimState) :
    (tryForRaiseCore rand k job s).2.1.gameMonth = s.gameMonth := by
  simp only [tryForRaiseCore]
  split <;> rfl

/-- `tryForRaiseCore` never touches the year either. -/
theorem tryForRaiseCore_gameYear (rand : RandStream) (k : ℕ) (job : Job) (s : SimState) :
    (tryForRaiseCore rand k job s).2.1.gameYear = s.gameYear := by
  simp only [tryForRaiseCore]
  split <;> rfl

/-- The income-and-raise phase never touches the calendar. -/
theorem incomeRaiseStep_gameMonth (rand : RandStream) (k : ℕ) (s : SimState) :
    (incomeRaiseStep rand k s).1.gameMonth = s.gameMonth := by
  unfold incomeRaiseStep
  cases hj : s.player.job with
  | none => rfl
  | some job => exact tryForRaiseCore_gameMonth rand k _ _

/-- The income-and-raise phase never touches the year. -/
theorem incomeRaiseStep_gameYear (rand : RandStream) (k : ℕ) (s : SimState) :
    (incomeRaiseStep rand k s).1.gameYear = s.gameYear := by
  unfold incomeRaiseStep
  cases hj : s.player.job with
  | none => rfl
  | some job => exact tryForRaiseCore_gameYear rand k _ _

/-- The random-event scan only touches savings and history: the calendar, the
job and the salary all survive unchanged. -/
theorem runEvents_preserves (rand : RandStream) :
    ∀ (evs : List REvent) (k : ℕ) (s : SimState),
      (runEvents rand k evs s).1.gameMonth = s.gameMonth ∧
      (runEvents rand k evs s).1.gameYear = s.gameYear ∧
      (runEvents rand k evs s).1.player.job = s.player.job ∧
      (runEvents rand k evs s).1.player.finance.salary = s.player.finance.salary := by
  intro evs
  induction evs with
  | nil => intro k s; exact ⟨rfl, rfl, rfl, rfl⟩
  | cons ev rest ih =>
    intro k s
    simp only [runEvents]
    split
    · exact ⟨rfl, rfl, rfl, rfl⟩
    · exact ih (k + 1) s

/-- The calendar update, isolated: new month and year as functions of the old. -/
theorem calendarStep_fields (s : SimState) :
    (calendarStep s).gameMonth = (if s.gameMonth + 1 > 12 then 1 else s.gameMonth + 1) ∧
    (calendarStep s).gameYear = (if s.gameMonth + 1 > 12 then s.gameYear + 1 else s.gameYear) := by
  unfold calendarStep
  split <;> exact ⟨rfl, rfl⟩

/-- The post-event state inside `processMonth`, as a named composition. -/
theorem processMonth_snd_gameMonth (rand : RandStream) (k : ℕ) (s : SimState) :
    (processMonth rand k s).2.1.gameMonth
      = (calendarStep ((runEvents rand (incomeRaiseStep rand k s).2 randomEvents
          (expenseStep (incomeRaiseStep rand k s).1)).1)).gameMonth := rfl

/-- Same for the year. -/
theorem processMonth_snd_gameYear (rand : RandStream) (k : ℕ) (s : SimState) :
    (processMonth rand k s).2.1.gameYear
      = (calendarStep ((runEvents rand (incomeRaiseStep rand k s).2 randomEvents
          (expenseStep (incomeRaiseStep rand k s).1)).1)).gameYear := rfl

/-- Claim C5: from any state with month in 1–12, one `processMonth()` call
advances the calendar by exactly one month — month becomes month+1, except
that month 12 wraps to month 1 with the year increased by exactly 1; the
returned record carries the advanced month and year, and the new month is
again in 1–12. -/
theorem processMonth_advances_one_month (rand : RandStream) (k : ℕ) (s : SimState)
    (h1 : 1 ≤ s.gameMonth) (h2 : s.gameMonth ≤ 12) :
    (processMonth rand k s).2.1.gameMonth
      = (if s.gameMonth = 12 then 1 else s.gameMonth + 1) ∧
    (processMonth rand k s).2.1.gameYear
      = (if s.gameMonth = 12 then s.gameYear + 1 else s.gameYear) ∧
    (processMonth rand k s).1.month = (processMonth rand k s).2.1.gameMonth ∧
    (processMonth rand k s).1.year = (processMonth rand k s).2.1.gameYear ∧
    1 ≤ (processMonth rand k s).2.1.gameMonth ∧
    (processMonth rand k s).2.1.gameMonth ≤ 12 := by
  have base : (runEvents rand (incomeRaiseStep rand k s).2 randomEvents
      (expenseStep (incomeRaiseStep rand k s).1)).1.gameMonth = s.gameMonth := by
    rw [(runEvents_preserves rand randomEvents _ _).1]
    show (incomeRaiseStep rand k s).1.gameMonth = s.gameMonth
    exact incomeRaiseStep_gameMonth rand k s
  have baseY : (runEvents rand (incomeRaiseStep rand k s).2 randomEvents
      (expenseStep (incomeRaiseStep rand k s).1)).1.gameYear = s.gameYear := by
    rw [(runEvents_preserves rand randomEvents _ _).2.1]
    show (incomeRaiseStep rand k s).1.gameYear = s.gameYear
    exact incomeRaiseStep_gameYear rand k s
  have hm := processMonth_snd_gameMonth rand k s
  rw [(calendarStep_fields _).1] at hm
  simp only [base] at hm
  have hy := processMonth_snd_gameYear rand k s
  rw [(calendarStep_fields _).2] at hy
  simp only [base, baseY] at hy
  have hm2 : (processMonth rand k s).2.1.gameMonth
      = (if s.gameMonth = 12 then 1 else s.gameMonth + 1) := by
    rw [hm]
    by_cases hc : s.gameMonth = 12
    · rw [if_pos (by omega : s.gameMonth + 1 > 12), if_pos hc]
    · rw [if_neg (by omega : ¬ s.gameMonth + 1 > 12), if_neg hc]
  have hy2 : (processMonth rand k s).2.1.gameYear
      = (if s.gameMonth = 12 then s.gameYear + 1 else s.gameYear) := by
    rw [hy]
    by_cases hc : s.gameMonth = 12
    · rw [if_pos (by omega : s.gameMonth + 1 > 12), if_pos hc]
    · rw [if_neg (by omega : ¬ s.gameMonth + 1 > 12), if_neg hc]
  refine ⟨hm2, hy2, rfl, rfl, ?_, ?_⟩ <;> rw [hm2] <;> split <;> omega

/-- Witness for C5 on a fresh engine (month 1, year 1): the month advances
to 2 and stays in range. -/
theorem processMonth_advances_one_month_witness :
    (processMonth (fun _ => 1) 0 defaultState).2.1.gameMonth
      = (if defaultState.gameMonth = 12 then 1 else defaultState.gameMonth + 1) ∧
    1 ≤ (processMonth (fun _ => 1) 0 defaultState).2.1.gameMonth :=
  ⟨(processMonth_advances_one_month (fun _ => 1) 0 defaultState
      (by decide) (by decide)).1,
   (processMonth_advances_one_month (fun _ => 1) 0 defaultState
      (by decide) (by decide)).2.2.2.2.1⟩

/-- The salary-mirror invariant: `player.finance.salary` equals the active
job's salary when a job exists and 0 otherwise. -/
def salaryInv (s : SimState) : Prop :=
  match s.player.job with
  | none => s.player.finance.salary = 0
  | some j => s.player.finance.salary = j.salary

/-- Engine states reachable from a fresh engine through the public
operations of spec section 4: `setLocation`, `updateExpense`,
`getAvailableJobs`, `calculateSalary`, `acceptJob`, `tryForRaise`,
`processMonth`, `processRandomEvent`, `calculateTotalMonthlyExpenses`,
`improveSkill`, `getGameState`, `loadGameState` and `resetGame`.
`loadGameState` is included only for snapshots taken from a reachable state
(the claim excludes arbitrary external snapshots).  `getAvailableJobs`
returns the state unchanged, `calculateSalary`,
`calculateTotalMonthlyExpenses` and `getGameState` are pure, and `resetGame`
always throws before touching anything, so none of them yields a transition
distinct from the ones below. -/
inductive Reachable : SimState → Prop where
  | init : Reachable defaultState
  | setLoc (s : SimState) (name : String) :
      Reachable s → Reachable (setLocation s name).2
  | updExp (s : SimState) (c : String) (a : ℚ) :
      Reachable s → Reachable (updateExpense s c a).2
  | impSkill (s : SimState) (n : String) (a : ℚ) :
      Reachable s → Reachable (improveSkill s n a).2
  | accJob (rand : RandStream) (k : ℕ) (s : SimState) (t : String) (b : Bool)
      (s' : SimState) (k' : ℕ) :
      Reachable s → acceptJob rand k s t = Except.ok (b, s', k') → Reachable s'
  | raise (rand : RandStream) (k : ℕ) (s : SimState) (r : ℚ)
      (s' : SimState) (k' : ℕ) :
      Reachable s → tryForRaise rand k s = Except.ok (r, s', k') → Reachable s'
  | month (rand : RandStream) (k : ℕ) (s : SimState) :
      Reachable s → Reachable (processMonth rand k s).2.1
  | rndEvent (rand : RandStream) (k : ℕ) (s : SimState) :
      Reachable s → Reachable (processRandomEvent rand k s).1
  | load (s t : SimState) :
      Reachable s → Reachable t → Reachable (loadGameState t (getGameState s))

/-- The invariant only looks at the job and the salary, so it transfers
between states agreeing on those. -/
theorem salaryInv_of_eq {s t : SimState} (hjob : t.player.job = s.player.job)
    (hsal : t.player.finance.salary = s.player.finance.salary)
    (h : salaryInv s) : salaryInv t := by
  unfold salaryInv at h ⊢
  rw [hjob, hsal]
  exact h

/-- A raise attempt keeps salary and job salary in sync. -/
theorem tryForRaiseCore_salaryInv (rand : RandStream) (k : ℕ) (job : Job)
    (s : SimState) (hinv : salaryInv s) :
    salaryInv (tryForRaiseCore rand k job s).2.1 := by
  simp only [tryForRaiseCore]
  split
  · unfold salaryInv addToHistory
    rfl
  · exact hinv

/-- The income-and-raise phase preserves the salary-mirror invariant. -/
theorem incomeRaiseStep_salaryInv (rand : RandStream) (k : ℕ) (s : SimState)
    (hinv : salaryInv s) : salaryInv (incomeRaiseStep rand k s).1 := by
  unfold incomeRaiseStep
  cases hj : s.player.job with
  | none => exact hinv
  | some job =>
    apply tryForRaiseCore_salaryInv
    unfold salaryInv at hinv ⊢
    rw [hj] at hinv
    simpa using hinv

/-- The calendar update never touches the player. -/
theorem calendarStep_player (s : SimState) : (calendarStep s).player = s.player := by
  unfold calendarStep
  split <;> rfl

/-- A successful `acceptJob` call yields a state satisfying the
salary-mirror invariant (a failing one leaves the state unchanged). -/
theorem acceptJob_salaryInv (rand : RandStream) (k : ℕ) (s : SimState)
    (t : String) (b : Bool) (s' : SimState) (k' : ℕ)
    (h : acceptJob rand k s t = Except.ok (b, s', k')) (hinv : salaryInv s) :
    salaryInv s' := by
  unfold acceptJob at h
  split at h
  · simp only [Except.ok.injEq, Prod.mk.injEq] at h
    obtain ⟨-, hs, -⟩ := h
    rw [← hs]
    exact hinv
  · split at h
    · exact absurd h (by simp)
    · simp only [Except.ok.injEq, Prod.mk.injEq] at h
      obtain ⟨-, hs, -⟩ := h
      rw [← hs]
      unfold salaryInv addToHistory
      rfl

/-- A successful `tryForRaise` call preserves the salary-mirror invariant. -/
theorem tryForRaise_salaryInv (rand : RandStream) (k : ℕ) (s : SimState)
    (r : ℚ) (s' : SimState) (k' : ℕ)
    (h : tryForRaise rand k s = Except.ok (r, s', k')) (hinv : salaryInv s) :
    salaryInv s' := by
  unfold tryForRaise at h
  split at h
  · exact absurd h (by simp)
  · rename_i job hj
    have h' : tryForRaiseCore rand k job s = (r, s', k') := by
      injection h
    have hs : s' = (tryForRaiseCore rand k job s).2.1 := by rw [h']
    rw [hs]
    exact tryForRaiseCore_salaryInv rand k job s hinv

/-- `processMonth` preserves the salary-mirror invariant. -/
theorem processMonth_salaryInv (rand : RandStream) (k : ℕ) (s : SimState)
    (hinv : salaryInv s) : salaryInv (processMonth rand k s).2.1 := by
  have h1 := incomeRaiseStep_salaryInv rand k s hinv
  have h2 : salaryInv (expenseStep (incomeRaiseStep rand k s).1) :=
    salaryInv_of_eq rfl rfl h1
  have hp := runEvents_preserves rand randomEvents (incomeRaiseStep rand k s).2
    (expenseStep (incomeRaiseStep rand k s).1)
  have h3 : salaryInv ((runEvents rand (incomeRaiseStep rand k s).2 randomEvents
      (expenseStep (incomeRaiseStep rand k s).1)).1) :=
    salaryInv_of_eq hp.2.2.1 hp.2.2.2 h2
  have hj : (processMonth rand k s).2.1.player.job
      = (calendarStep ((runEvents rand (incomeRaiseStep rand k s).2 randomEvents
          (expenseStep (incomeRaiseStep rand k s).1)).1)).player.job := rfl
  have hs : (processMonth rand k s).2.1.player.finance.salary
      = (calendarStep ((runEvents rand (incomeRaiseStep rand k s).2 randomEvents
          (expenseStep (incomeRaiseStep rand k s).1)).1)).player.finance.salary := rfl
  rw [calendarStep_player] at hj hs
  exact salaryInv_of_eq hj hs h3

/-- `setLocation` only touches the location and the expenses. -/
theorem setLocation_salaryInv (s : SimState) (name : String)
    (hinv : salaryInv s) : salaryInv (setLocation s name).2 := by
  unfold setLocation
  split
  · exact salaryInv_of_eq rfl rfl hinv
  · exact salaryInv_of_eq rfl rfl hinv
  · exact hinv

/-- `updateExpense` only touches the expenses. -/
theorem updateExpense_salaryInv (s : SimState) (c : String) (a : ℚ)
    (hinv : salaryInv s) : salaryInv (updateExpense s c a).2 := by
  unfold updateExpense
  split_ifs <;> exact salaryInv_of_eq rfl rfl hinv

/-- `improveSkill` only touches savings, skills and history. -/
theorem improveSkill_salaryInv (s : SimState) (n : String) (a : ℚ)
    (hinv : salaryInv s) : salaryInv (improveSkill s n a).2 := by
  simp only [improveSkill]
  split_ifs <;> exact salaryInv_of_eq rfl rfl hinv

/-- Every reachable state keeps `finance.salary` mirroring the active job
(0 when there is none). -/
theorem reachable_salaryInv : ∀ s, Reachable s → salaryInv s := by
  intro s h
  induction h with
  | init => unfold salaryInv defaultState defaultPlayer; rfl
  | setLoc s name _ ih => exact setLocation_salaryInv s name ih
  | updExp s c a _ ih => exact updateExpense_salaryInv s c a ih
  | impSkill s n a _ ih => exact improveSkill_salaryInv s n a ih
  | accJob rand k s t b s' k' _ heq ih => exact acceptJob_salaryInv rand k s t b s' k' heq ih
  | raise rand k s r s' k' _ heq ih => exact tryForRaise_salaryInv rand k s r s' k' heq ih
  | month rand k s _ ih => exact processMonth_salaryInv rand k s ih
  | rndEvent rand k s _ ih =>
    exact salaryInv_of_eq (runEvents_preserves rand randomEvents k s).2.2.1
      (runEvents_preserves rand randomEvents k s).2.2.2 ih
  | load s t _ _ ihs _ => exact salaryInv_of_eq rfl rfl ihs

/-- A reachable state with negative savings: a fresh engine placed in
"Big City" (monthly expenses 3300, savings 2000, no job) after one month,
with draws that fire no random event and grant no raise. -/
theorem negative_savings_reachable :
    (processMonth (fun _ => 1) 0 bigCityState).2.1.player.finance.savings = -1300 := by
  rw [show (processMonth (fun _ => 1) 0 bigCityState).2.1.player.finance.savings
      = (runEvents (fun _ => 1) (incomeRaiseStep (fun _ => 1) 0 bigCityState).2 randomEvents
          (expenseStep (incomeRaiseStep (fun _ => 1) 0 bigCityState).1)).1.player.finance.savings
      from rfl.trans (congrArg (fun p => p.finance.savings) (calendarStep_player _))]
  rw [show incomeRaiseStep (fun _ => 1) 0 bigCityState = (bigCityState, 0) by
    unfold incomeRaiseStep; rw [bigCityState_eq]]
  have hexp : expenseStep bigCityState = { bigCityState with
      player := { bigCityState.player with
        finance := { bigCityState.player.finance with savings := -1300 } } } := by
    rw [bigCityState_eq]
    unfold expenseStep
    norm_num [calculateTotalMonthlyExpenses, expenseValues]
  rw [hexp]
  have hnone : ∀ (k : ℕ) (st : SimState),
      (runEvents (fun _ => 1) k randomEvents st).1 = st := by
    intro k st
    norm_num [runEvents, randomEvents]
  rw [hnone]

/-- Claim C9: on every state reachable from a fresh engine by the public
operations (restoring only snapshots of reachable states), the expense
mapping recognizes exactly the fixed six-category set (in the embedding the
`Expenses` record fixes the key set by construction, and `updateExpense`
accepts exactly those six keys), `finance.salary` mirrors the active job's
salary — 0 when no job is active —, and savings are not clamped at zero:
a reachable state with strictly negative savings exists. -/
theorem engine_invariants :
    (∀ s, Reachable s → ∀ c a, ((updateExpense s c a).1 = true ↔ c ∈ expenseCategories)) ∧
    (∀ s, Reachable s → salaryInv s) ∧
    (∃ s, Reachable s ∧ s.player.finance.savings < 0) := by
  refine ⟨?_, reachable_salaryInv, ?_⟩
  · intro s _ c a
    unfold updateExpense
    split_ifs with h1 h2 h3 h4 h5 h6 <;> simp [expenseCategories, *]
  · refine ⟨(processMonth (fun _ => 1) 0 bigCityState).2.1,
      Reachable.month (fun _ => 1) 0 bigCityState
        (Reachable.setLoc defaultState "Big City" Reachable.init), ?_⟩
    rw [negative_savings_reachable]
    norm_num

/-- Witness for C9 at the fresh engine, which is reachable by construction. -/
theorem engine_invariants_witness :
    salaryInv defaultState ∧
    ((updateExpense defaultState "food" 5).1 = true ↔ "food" ∈ expenseCategories) :=
  ⟨engine_invariants.2.1 defaultState Reachable.init,
   engine_invariants.1 defaultState Reachable.init "food" 5⟩
